import Mathlib

/-!
# Verification of `aiohttp_storage/storage.py`

A shallow embedding of the filename-safety and collision-resolution core of
the `aiohttp-storage` repository, together with theorems settling the frozen
claims about it.

Modelling conventions:
* Python strings are Lean `String`s; `len` is `String.length`.
* `pathlib.Path` (POSIX flavour) is modelled by `PyPath`: an `absolute` flag
  plus the list of non-root segments.  Parsing drops empty and `"."` segments,
  exactly as `PurePosixPath` does.  The double-leading-slash special case of
  POSIX paths is not modelled (no input in this development uses it).
* Filesystem path canonicalisation (`Path.resolve`) is modelled lexically
  (collapse `..`), i.e. in a world without symlinks; the current working
  directory used to absolutise relative paths is an explicit parameter.
* The cryptographically secure random source (`secrets.choice` over
  `RANDOM_STRING_CHARS`) is modelled as an explicit stream
  `rnd : Nat -> Fin 62` of indices into the 62-character alphabet; each call
  site consumes 7 consecutive stream positions.
* Unbounded `while` loops are modelled with explicit fuel; `none` means the
  fuel ran out (the Python loop would still be running).
* Raised exceptions are values `PyErr` carrying the Python exception class and
  the formatted message.
-/

/-- The Python exception classes raised by the module.  In the source,
`SuspiciousFileOperation` is declared as a subclass of `ValueError`. -/
inductive PyExcType where
  | SuspiciousFileOperation
  | ValueError
  deriving DecidableEq, Repr

/-- `isinstance(e, ValueError)`: `SuspiciousFileOperation` subclasses
`ValueError`, so both classes are `ValueError`s. -/
def PyExcType.isValueError : PyExcType → Bool
  | .SuspiciousFileOperation => true
  | .ValueError => true

/-- A raised Python exception: its class and its message. -/
structure PyErr where
  etype : PyExcType
  msg : String
  deriving DecidableEq, Repr

/-- `string.ascii_letters + string.digits`, the alphabet used by
`get_alternative_stem` (`RANDOM_STRING_CHARS` in the source). -/
def RANDOM_STRING_CHARS : List Char :=
  "abcdefghijklmnopqrstuvwxyzABCDEFGHIJKLMNOPQRSTUVWXYZ0123456789".toList

/-- `secrets.choice(RANDOM_STRING_CHARS)` for one draw, the draw being an
index into the alphabet. -/
def alphabetChar (i : Fin 62) : Char :=
  RANDOM_STRING_CHARS.get ⟨i.val, by
    have h : RANDOM_STRING_CHARS.length = 62 := by decide
    omega⟩

/-- `"".join([choice(RANDOM_STRING_CHARS) for i in range(n)])`, drawing the
`n` choices from stream positions `ctr, ctr+1, ...`. -/
def randomString (rnd : Nat → Fin 62) (ctr n : Nat) : String :=
  String.mk ((List.range n).map fun i => alphabetChar (rnd (ctr + i)))

/-! ## The path model -/

/-- `pathlib.PurePosixPath`: an absolute flag plus the non-root segments
(no empty or `"."` segments; `".."` segments are kept, as in `pathlib`). -/
structure PyPath where
  absolute : Bool
  segs : List String
  deriving DecidableEq, Repr

/-- Split a character list at `'/'`. -/
def splitSlash : List Char → List Char → List (List Char)
  | [], cur => [cur.reverse]
  | '/' :: rest, cur => cur.reverse :: splitSlash rest []
  | c :: rest, cur => splitSlash rest (c :: cur)

/-- `Path(s)` for a POSIX path string: record whether it is absolute and keep
the segments, dropping empty ones and `"."` (as `PurePosixPath` does). -/
def parsePath (s : String) : PyPath :=
  { absolute := match s.toList with | '/' :: _ => true | _ => false
    segs := ((splitSlash s.toList []).map String.mk).filter
      fun t => !(t == "" || t == ".") }

/-- `path.parts`: the root (when absolute) followed by the segments. -/
def PyPath.parts (p : PyPath) : List String :=
  (if p.absolute then ["/"] else []) ++ p.segs

/-- `path.name`: the final segment, or `""` for a root/empty path. -/
def PyPath.name (p : PyPath) : String :=
  (p.segs.getLast?).getD ""

/-- `path.parent`: drop the final segment. -/
def PyPath.parent (p : PyPath) : PyPath :=
  { absolute := p.absolute, segs := p.segs.dropLast }

/-- Index of the last `'.'` in a name (`name.rfind('.')` when it occurs). -/
def lastDotIdx (cs : List Char) : Option Nat :=
  match cs.reverse.findIdx? (fun c => c == '.') with
  | none => none
  | some j => some (cs.length - 1 - j)

/-- `PurePath.suffix`: the extension from the last dot, nonempty only when
that dot is neither the first nor the last character of the name. -/
def pySuffix (nm : String) : String :=
  match lastDotIdx nm.toList with
  | none => ""
  | some i =>
    if 0 < i ∧ i < nm.toList.length - 1 then String.mk (nm.toList.drop i) else ""

/-- `PurePath.stem`: the name with `pySuffix` removed. -/
def pyStem (nm : String) : String :=
  match lastDotIdx nm.toList with
  | none => nm
  | some i =>
    if 0 < i ∧ i < nm.toList.length - 1 then String.mk (nm.toList.take i) else nm

def PyPath.stem (p : PyPath) : String := pyStem p.name

def PyPath.suffix (p : PyPath) : String := pySuffix p.name

/-- `path.with_stem(s)`: replace the final segment by `s ++ suffix`.  (The
`with_name` validity check of `pathlib` is omitted: every call site in the
source passes a nonempty stem for a path with a nonempty name.) -/
def PyPath.withStem (p : PyPath) (s : String) : PyPath :=
  { absolute := p.absolute, segs := p.segs.dropLast ++ [s ++ p.suffix] }

/-- Join segments with `'/'`. -/
def joinSlash : List String → String
  | [] => ""
  | [a] => a
  | a :: rest => a ++ "/" ++ joinSlash rest

/-- `str(path)`: `"."` for an empty relative path, `"/"` for the bare root. -/
def PyPath.toStr (p : PyPath) : String :=
  if p.segs.isEmpty then (if p.absolute then "/" else ".")
  else (if p.absolute then "/" else "") ++ joinSlash p.segs

/-! ## `get_valid_filename` -/

/-- Python's Unicode-aware regex class `\w` (word character) as used by
`re.sub(r"[^\w.-]", "", s)` on a `str`.  The ASCII part (letters, digits,
underscore) is modelled exactly; beyond ASCII, `\w` matches all Unicode
letters and digits, of which this development only ever uses the basic
Cyrillic letter block U+0410..U+044F, so the model's table covers the ASCII
range plus that block. -/
def isPythonWordChar (c : Char) : Bool :=
  c.isAlphanum || c == '_' || (0x410 ≤ c.val && c.val ≤ 0x44F)

/-- The character class kept by `re.sub(r"[^\w.-]", "", s)`: word characters,
dots and hyphens. -/
def pyRegexKeep (c : Char) : Bool :=
  isPythonWordChar c || c == '.' || c == '-'

/-- `str.strip()`: drop whitespace at both ends. -/
def pyStrip (s : String) : String :=
  String.mk (((s.toList.dropWhile Char.isWhitespace).reverse.dropWhile
    Char.isWhitespace).reverse)

/-- `str.replace(" ", "_")`. -/
def pyReplaceSpaces (s : String) : String :=
  String.mk (s.toList.map fun c => if c == ' ' then '_' else c)

/-- `get_valid_filename` from the source, parametrised by the NFKD
normalisation function `unicodedata.normalize("NFKD", .)`, which is a large
external Unicode table: theorems below quantify over every `nfkd`, and
concrete evaluations instantiate it with `nfkdModel`. -/
def get_valid_filename (nfkd : String → String) (name : String) :
    Except PyErr String :=
  let s := pyReplaceSpaces (pyStrip name)
  let s := nfkd s
  let s := String.mk (s.toList.filter pyRegexKeep)
  if s = "" ∨ s = "." ∨ s = ".." then
    .error ⟨.SuspiciousFileOperation,
      "Could not derive file name from '" ++ name ++ "'"⟩
  else .ok s

/-- Modelled from the spec: Unicode NFKD compatibility normalisation
(`unicodedata.normalize("NFKD", s)`), whose full decomposition table is
external to the repository.  We use it only on strings whose characters have
no decomposition (ASCII and basic Cyrillic letters), where NFKD is the
identity. -/
def nfkdModel (s : String) : String := s

/-! ## `validate_file_name` -/

/-- `validate_file_name` from the source. -/
def validate_file_name (filename : String) (allow_relative_path : Bool) :
    Except PyErr String :=
  let path := parsePath filename
  if path.name = "" ∨ path.name = "." ∨ path.name = ".." then
    .error ⟨.SuspiciousFileOperation,
      "Could not derive file name from '" ++ filename ++ "'"⟩
  else if allow_relative_path then
    if path.absolute = true ∨ (".." : String) ∈ path.parts then
      .error ⟨.SuspiciousFileOperation,
        "Detected path traversal attempt in " ++ filename⟩
    else .ok filename
  else if path.parts.head? ≠ some path.name then
    .error ⟨.SuspiciousFileOperation,
      "File name '" ++ filename ++ "' includes path elements"⟩
  else .ok filename

/-! ## `safe_join` -/

/-- Lexical canonicalisation step of `Path.resolve()`: collapse `".."`
segments against the accumulated absolute segment list (at the root, `".."`
stays at the root).  `"."` and empty segments were dropped at parse time. -/
def collapseDots (segs : List String) : List String :=
  segs.foldl (fun acc seg => if seg = ".." then acc.dropLast else acc ++ [seg]) []

/-- `Path.resolve()` in a symlink-free world: absolutise against the current
working directory `cwd` (itself given as canonical absolute segments) and
collapse `".."`. -/
def resolveParts (cwd : List String) (p : PyPath) : List String :=
  collapseDots ((if p.absolute then [] else cwd) ++ p.segs)

/-- Render an absolute canonical segment list as a path string. -/
def absToStr (segs : List String) : String :=
  PyPath.toStr { absolute := true, segs := segs }

/-- `base_path.joinpath(path).resolve()`: `joinpath` lets an absolute
argument replace the base; the result is canonicalised. -/
def canonicalJoined (cwd : List String) (base path : String) : List String :=
  let base_path := resolveParts cwd (parsePath base)
  let q := parsePath path
  if q.absolute then resolveParts cwd q
  else collapseDots (base_path ++ q.segs)

/-- `safe_join(base, path)` from the source (the single-argument call shape
used throughout the module): resolve the base, join the path onto it and
resolve, and require the result to be the base or a descendant of it
(`is_relative_to`, a lexical segment-prefix test). -/
def safe_join (cwd : List String) (base path : String) : Except PyErr String :=
  let base_path := resolveParts cwd (parsePath base)
  let joined_path := canonicalJoined cwd base path
  if base_path.isPrefixOf joined_path then .ok (absToStr joined_path)
  else .error ⟨.SuspiciousFileOperation,
    "Path " ++ absToStr joined_path ++ " is not subpath of " ++
      absToStr base_path⟩

/-! ## `BaseStorage.get_available_filename` and `get_alternative_stem` -/

/-- `get_alternative_stem(stem)` with the source's defaults
(`random_length=7`, `sep="_"`): append a separator and 7 random alphabet
characters, drawn from stream positions `ctr..ctr+6`. -/
def get_alternative_stem (rnd : Nat → Fin 62) (ctr : Nat) (stem : String) :
    String :=
  stem ++ "_" ++ randomString rnd ctr 7

/-- The exhaustion error raised when truncation would empty the stem. -/
def exhaustedErr (origin : PyPath) : PyErr :=
  ⟨.SuspiciousFileOperation,
    "Storage can not find an available filename for '" ++ origin.toStr ++ "'."⟩

/-- The `while` loop of `get_available_filename`, with fuel.  `ex` is the
backend's `exists`, `origin` is `origin_path`, `filename` the current
candidate and `ctr` the random-stream position. -/
def resolveLoop (ex : String → Bool) (rnd : Nat → Fin 62) (origin : PyPath)
    (maxLen : Int) : Nat → String → Nat → Option (Except PyErr String)
  | 0, _, _ => none
  | Nat.succ fuel, filename, ctr =>
    if ex filename = true ∨ (0 < maxLen ∧ maxLen < (filename.length : Int)) then
      let f1 := (origin.withStem (get_alternative_stem rnd ctr origin.stem)).toStr
      if maxLen ≤ 0 then
        resolveLoop ex rnd origin maxLen fuel f1 (ctr + 7)
      else
        let truncation : Int := (f1.length : Int) - maxLen
        if 0 < truncation then
          let truncated_stem :=
            String.mk (origin.stem.toList.take
              (origin.stem.toList.length - truncation.toNat))
          if truncated_stem = "" then some (.error (exhaustedErr origin))
          else
            resolveLoop ex rnd origin maxLen fuel
              ((origin.withStem
                (get_alternative_stem rnd (ctr + 7) truncated_stem)).toStr)
              (ctr + 14)
        else
          resolveLoop ex rnd origin maxLen fuel f1 (ctr + 7)
    else some (.ok filename)

/-- `BaseStorage.get_available_filename(filename, max_len)` from the source:
reject `".."` components, validate the final component, then run the
collision/length loop starting from the raw `filename` string. -/
def get_available_filename (ex : String → Bool) (rnd : Nat → Fin 62)
    (fuel : Nat) (filename : String) (maxLen : Int) :
    Option (Except PyErr String) :=
  let origin_path := parsePath filename
  if (".." : String) ∈ origin_path.parts then
    some (.error ⟨.SuspiciousFileOperation,
      "Detected path traversal '" ++ origin_path.parent.toStr ++ "'"⟩)
  else
    match validate_file_name origin_path.name false with
    | .error e => some (.error e)
    | .ok _ => resolveLoop ex rnd origin_path maxLen fuel filename 0

/-! ## `BaseStorage.save` over `FileSystemStorage._save`

The filesystem is modelled as a time-indexed predicate
`world : Nat → String → Bool`: `world t name` says whether `name` exists at
step `t` (step 0 is the initial resolution; step `t ≥ 1` is the `t`-th
exclusive-create attempt, which fails with `FileExistsError` exactly when the
name exists then — concurrent writers may have added names in between).
Byte transfer and directory creation are not modelled: the claims under
verification are about the stored filename. -/

/-- The `while True` retry loop of `FileSystemStorage._save`: an
exclusive-create attempt that hits an existing name re-resolves via
`get_available_filename(filename)` — note the source passes no `max_len`
there, so the Python default `max_len=0` applies. -/
def fsSaveWriteLoop (world : Nat → String → Bool) (rnd : Nat → Fin 62) :
    Nat → String → Nat → Option (Except PyErr String)
  | 0, _, _ => none
  | Nat.succ fuel, filename, t =>
    if world t filename = true then
      match get_available_filename (world t) rnd (fuel + 1) filename 0 with
      | none => none
      | some (.error e) => some (.error e)
      | some (.ok f2) => fsSaveWriteLoop world rnd fuel f2 (t + 1)
    else some (.ok filename)

/-- `BaseStorage.save(filename, data, max_len)` specialised to
`FileSystemStorage._save`: resolve an available name under `maxLen`, run the
exclusive-create/retry loop, then re-validate the final name in
relative-allowed mode. -/
def save (world : Nat → String → Bool) (rnd : Nat → Fin 62) (fuel : Nat)
    (filename : String) (maxLen : Int) : Option (Except PyErr String) :=
  match get_available_filename (world 0) rnd fuel filename maxLen with
  | none => none
  | some (.error e) => some (.error e)
  | some (.ok f1) =>
    match fsSaveWriteLoop world rnd fuel f1 1 with
    | none => none
    | some (.error e) => some (.error e)
    | some (.ok f2) =>
      match validate_file_name f2 true with
      | .error e => some (.error e)
      | .ok _ => some (.ok f2)

/-! ## `FileSystemStorage.url` -/

/-- `str.lstrip('/')`. -/
def lstripSlash (s : String) : String :=
  String.mk (s.toList.dropWhile fun c => c == '/')

/-- `str.rstrip('/')`. -/
def rstripSlash (s : String) : String :=
  String.mk ((s.toList.reverse.dropWhile fun c => c == '/').reverse)

/-- `FileSystemStorage.url(filename)` from the source: validate the name in
relative-allowed mode, then read the `base_url` property, which raises
`ValueError("Invalid base_url")` when `_base_url` is `None` or empty and
otherwise strips trailing slashes. -/
def url (base_url : Option String) (filename : String) : Except PyErr String :=
  match validate_file_name filename true with
  | .error e => .error e
  | .ok _ =>
    match base_url with
    | none => .error ⟨.ValueError, "Invalid base_url"⟩
    | some b =>
      if b = "" then .error ⟨.ValueError, "Invalid base_url"⟩
      else .ok (rstripSlash b ++ "/" ++ lstripSlash filename)

/-! ## Definitions used by the theorems -/

/-- The names the resolver loop can be holding, relative to the original
request `f0` for origin path `origin`: either `f0` itself, or the origin with
its stem replaced by the first `k` characters of the *original* stem followed
by the separator and 7 random characters drawn at some stream position
`ctr`. -/
def Candidate (origin : PyPath) (rnd : Nat → Fin 62) (f0 f : String) : Prop :=
  f = f0 ∨ ∃ k ctr, k ≤ origin.stem.toList.length ∧
    f = (origin.withStem (String.mk (origin.stem.toList.take k) ++ "_" ++
      randomString rnd ctr 7)).toStr

/-- A concrete random stream: always the first alphabet letter, `'a'`. -/
def rndA : Nat → Fin 62 := fun _ => 0

/-- An `exists` that is false everywhere (an empty store). -/
def exFalse : String → Bool := fun _ => false

/-- An `exists` that is true only for `"x.txt"`. -/
def exX : String → Bool := fun s => s == "x.txt"

/-- An `exists` that is true only for `"toolongname.txt"`. -/
def exC5 : String → Bool := fun s => s == "toolongname.txt"

/-- A filesystem history for the write race: empty at resolution time
(step 0), and from step 1 on a concurrent writer has created
`"abcdefgh.txt"`. -/
def worldC3 : Nat → String → Bool :=
  fun t s => decide (t ≠ 0) && (s == "abcdefgh.txt")

/-! ## Helper lemmas -/

theorem RANDOM_STRING_CHARS_length : RANDOM_STRING_CHARS.length = 62 := by
  decide

theorem randomString_length (rnd : Nat → Fin 62) (ctr n : Nat) :
    (randomString rnd ctr n).length = n := by
  simp [randomString, String.length]

theorem randomString_mem (rnd : Nat → Fin 62) (ctr n : Nat) :
    ∀ c ∈ (randomString rnd ctr n).toList, c ∈ RANDOM_STRING_CHARS := by
  intro c hc
  simp only [randomString, String.toList, String.mk, List.mem_map] at hc
  obtain ⟨i, _, rfl⟩ := hc
  exact List.get_mem _ _ _

/-- A string `a` and a string `b` of different lengths are not `==`. -/
theorem str_beq_false_of_length {a b : String} (h : a.length ≠ b.length) :
    (a == b) = false := by
  apply beq_eq_false_iff_ne.mpr
  intro e
  exact h (by rw [e])

theorem mk_take_length (s : String) :
    String.mk (s.toList.take s.toList.length) = s := by
  rw [List.take_length]
  rfl

theorem candidate_alt_full (origin : PyPath) (rnd : Nat → Fin 62)
    (f0 : String) (ctr : Nat) :
    Candidate origin rnd f0
      ((origin.withStem (get_alternative_stem rnd ctr origin.stem)).toStr) := by
  right
  refine ⟨origin.stem.toList.length, ctr, le_refl _, ?_⟩
  rw [mk_take_length]
  rfl

theorem candidate_alt_trunc (origin : PyPath) (rnd : Nat → Fin 62)
    (f0 : String) (ctr k : Nat) (hk : k ≤ origin.stem.toList.length) :
    Candidate origin rnd f0
      ((origin.withStem (get_alternative_stem rnd ctr
        (String.mk (origin.stem.toList.take k)))).toStr) :=
  Or.inr ⟨k, ctr, hk, rfl⟩

/-- Loop invariant of `resolveLoop`: starting from a `Candidate`, a normal
return is a `Candidate` for which `ex` is false, and which fits the length
budget when one is set. -/
theorem resolveLoop_ok_inv (ex : String → Bool) (rnd : Nat → Fin 62)
    (origin : PyPath) (maxLen : Int) (f0 : String) :
    ∀ fuel f ctr name, Candidate origin rnd f0 f →
      resolveLoop ex rnd origin maxLen fuel f ctr = some (.ok name) →
      Candidate origin rnd f0 name ∧ ex name = false ∧
        (0 < maxLen → (name.length : Int) ≤ maxLen) := by
  intro fuel
  induction fuel with
  | zero => intro f ctr name _ h; simp [resolveLoop] at h
  | succ n ih =>
    intro f ctr name hc h
    simp only [resolveLoop] at h
    split at h
    · split at h
      · exact ih _ _ _ (candidate_alt_full origin rnd f0 ctr) h
      · split at h
        · split at h
          · simp at h
          · exact ih _ _ _
              (candidate_alt_trunc origin rnd f0 (ctr + 7) _ (Nat.sub_le _ _)) h
        · exact ih _ _ _ (candidate_alt_full origin rnd f0 ctr) h
    · rename_i hcond
      have hfn : f = name := by
        simpa using h
      subst hfn
      refine ⟨hc, ?_, ?_⟩
      · cases hexf : ex f
        · rfl
        · exact absurd (Or.inl hexf) hcond
      · intro hml
        by_contra hlen
        push_neg at hlen
        exact hcond (Or.inr ⟨hml, hlen⟩)

/-- With no positive length budget, the loop can only return normally, with a
name `ex` rejects: the exhaustion branch is skipped by the `continue`. -/
theorem resolveLoop_nonpos (ex : String → Bool) (rnd : Nat → Fin 62)
    (origin : PyPath) (maxLen : Int) (hml : maxLen ≤ 0) :
    ∀ fuel f ctr r, resolveLoop ex rnd origin maxLen fuel f ctr = some r →
      ∃ name, r = .ok name ∧ ex name = false := by
  intro fuel
  induction fuel with
  | zero => intro f ctr r h; simp [resolveLoop] at h
  | succ n ih =>
    intro f ctr r h
    simp only [resolveLoop] at h
    split at h
    · exact ih _ _ _ h
    · rename_i hcond
      have hr : r = .ok f := by simpa using h.symm
      subst hr
      refine ⟨f, rfl, ?_⟩
      cases hexf : ex f
      · rfl
      · exact absurd (Or.inl hexf) hcond

/-- Unfolding `get_available_filename` on a normal return: the loop ran and
its invariant applies with `f0 := filename`. -/
theorem get_available_filename_ok (ex : String → Bool) (rnd : Nat → Fin 62)
    (fuel : Nat) (filename : String) (maxLen : Int) (name : String)
    (h : get_available_filename ex rnd fuel filename maxLen =
      some (.ok name)) :
    Candidate (parsePath filename) rnd filename name ∧ ex name = false ∧
      (0 < maxLen → (name.length : Int) ≤ maxLen) := by
  simp only [get_available_filename] at h
  split at h
  · simp at h
  · split at h
    · simp at h
    · exact resolveLoop_ok_inv ex rnd _ maxLen filename fuel filename 0 name
        (Or.inl rfl) h

/-- Every error `get_valid_filename` can produce is a
`SuspiciousFileOperation`. -/
theorem get_valid_filename_error_etype (nfkd : String → String) (s : String)
    (e : PyErr) (h : get_valid_filename nfkd s = .error e) :
    e.etype = .SuspiciousFileOperation := by
  simp only [get_valid_filename] at h
  split at h
  · have he : (⟨.SuspiciousFileOperation,
        "Could not derive file name from '" ++ s ++ "'"⟩ : PyErr) = e := by
      simpa using h
    rw [← he]
  · simp at h

/-- Every error `validate_file_name` can produce is a
`SuspiciousFileOperation`. -/
theorem validate_file_name_error_etype (f : String) (ar : Bool) (e : PyErr)
    (h : validate_file_name f ar = .error e) :
    e.etype = .SuspiciousFileOperation := by
  simp only [validate_file_name] at h
  split at h
  · have he : (⟨.SuspiciousFileOperation,
        "Could not derive file name from '" ++ f ++ "'"⟩ : PyErr) = e := by
      simpa using h
    rw [← he]
  · split at h
    · split at h
      · have he : (⟨.SuspiciousFileOperation,
            "Detected path traversal attempt in " ++ f⟩ : PyErr) = e := by
          simpa using h
        rw [← he]
      · simp at h
    · split at h
      · have he : (⟨.SuspiciousFileOperation,
            "File name '" ++ f ++ "' includes path elements"⟩ : PyErr) = e := by
          simpa using h
        rw [← he]
      · simp at h

/-- Every error `safe_join` can produce is a `SuspiciousFileOperation`. -/
theorem safe_join_error_etype (cwd : List String) (b p : String) (e : PyErr)
    (h : safe_join cwd b p = .error e) :
    e.etype = .SuspiciousFileOperation := by
  simp only [safe_join] at h
  split at h
  · simp at h
  · have he : (⟨.SuspiciousFileOperation,
        "Path " ++ absToStr (canonicalJoined cwd b p) ++ " is not subpath of "
          ++ absToStr (resolveParts cwd (parsePath b))⟩ : PyErr) = e := by
      simpa using h
    rw [← he]

/-- Every error `resolveLoop` can produce is a `SuspiciousFileOperation`
(the exhaustion error). -/
theorem resolveLoop_error_etype (ex : String → Bool) (rnd : Nat → Fin 62)
    (origin : PyPath) (maxLen : Int) :
    ∀ fuel f ctr e,
      resolveLoop ex rnd origin maxLen fuel f ctr = some (.error e) →
      e.etype = .SuspiciousFileOperation := by
  intro fuel
  induction fuel with
  | zero => intro f ctr e h; simp [resolveLoop] at h
  | succ n ih =>
    intro f ctr e h
    simp only [resolveLoop] at h
    split at h
    · split at h
      · exact ih _ _ _ h
      · split at h
        · split at h
          · have he : exhaustedErr origin = e := by simpa using h
            rw [← he]
            rfl
          · exact ih _ _ _ h
        · exact ih _ _ _ h
    · simp at h

/-- Every error `get_available_filename` can produce is a
`SuspiciousFileOperation`. -/
theorem get_available_filename_error_etype (ex : String → Bool)
    (rnd : Nat → Fin 62) (fuel : Nat) (f : String) (m : Int) (e : PyErr)
    (h : get_available_filename ex rnd fuel f m = some (.error e)) :
    e.etype = .SuspiciousFileOperation := by
  simp only [get_available_filename] at h
  split at h
  · have he : (⟨.SuspiciousFileOperation, "Detected path traversal '" ++
        (parsePath f).parent.toStr ++ "'"⟩ : PyErr) = e := by
      simpa using h
    rw [← he]
  · split at h
    · rename_i e1 heq
      have he : e1 = e := by simpa using h
      rw [← he]
      exact validate_file_name_error_etype _ _ _ heq
    · exact resolveLoop_error_etype ex rnd _ m fuel f 0 e h

/-! ## The claims -/

/-- C1: the claim says `safe_join` fails with `PathTraversal` for *every*
filename containing a `..` component, regardless of what the joined path
resolves to.  Counterexample: `safe_join("/a", "b/../c")` — the argument
contains a `..` component, yet the joined path canonicalises to `/a/c`,
which is inside the root, and `safe_join` succeeds. -/
theorem C1_counterexample :
    (".." : String) ∈ (parsePath "b/../c").parts ∧
    safe_join [] "/a" "b/../c" = .ok "/a/c" := ⟨by decide, rfl⟩

/-- C1 (amended): for every root and filename containing a `..` component,
`safe_join` fails with `PathTraversal` (a `SuspiciousFileOperation`) when the
canonical joined path is not equal to, or a descendant of, the canonical
root; a `..` component that still resolves inside the root does not fail. -/
theorem C1_amended_thm (cwd : List String) (base path : String)
    (_hdots : (".." : String) ∈ (parsePath path).parts)
    (hesc : (resolveParts cwd (parsePath base)).isPrefixOf
      (canonicalJoined cwd base path) = false) :
    safe_join cwd base path = .error ⟨.SuspiciousFileOperation,
      "Path " ++ absToStr (canonicalJoined cwd base path) ++
        " is not subpath of " ++ absToStr (resolveParts cwd (parsePath base))⟩
    := by
  simp [safe_join, hesc]

/-- C1 witness: `safe_join("/a", "../b")` resolves to `/b`, outside the
root, and fails. -/
theorem C1_witness :
    ((".." : String) ∈ (parsePath "../b").parts ∧
      (resolveParts [] (parsePath "/a")).isPrefixOf
        (canonicalJoined [] "/a" "../b") = false) ∧
    safe_join [] "/a" "../b" = .error ⟨.SuspiciousFileOperation,
      "Path /b is not subpath of /a"⟩ :=
  ⟨⟨by decide, by decide⟩, C1_amended_thm [] "/a" "../b" (by decide) (by decide)⟩

/-- C2: the claim says that with `allow_relative` false,
`validate_file_name` rejects every filename with more than one path segment.
The code instead compares `path.parts[0]` with `path.name`, which accepts
`"a/a"` — a two-segment name whose first segment happens to equal its last.
This contradicts the check's own intent (its error message is
"includes path elements"), so it is a code bug, not a spec overclaim. -/
theorem C2_code_eval :
    validate_file_name "a/a" false = .ok "a/a" ∧
    (parsePath "a/a").parts.length = 2 := ⟨rfl, by decide⟩

/-- C3: the claim says the `AlreadyExists` retry inside `save` re-resolves
under the same `max_len` budget, so a successful `save` with `max_len > 0`
never returns a name longer than `max_len`.  The code's retry calls
`get_available_filename(filename)` with the `max_len` parameter left at its
default `0`: on the history `worldC3` (a concurrent writer creates
`abcdefgh.txt` between resolution and write), `save` with `max_len = 12`
succeeds and returns a 20-character name. -/
theorem C3_code_eval :
    save worldC3 rndA 3 "abcdefgh.txt" 12 =
      some (.ok "abcdefgh_aaaaaaa.txt") ∧
    (12 : Int) < (("abcdefgh_aaaaaaa.txt" : String).length : Int) :=
  ⟨rfl, by decide⟩

/-- C4: the claim says a successful `sanitize` output contains only
characters from `[A-Za-z0-9._-]`.  Counterexample: the regex `[^\w.-]` is
Unicode-aware, so the Cyrillic letter `д` (a `\w` character with no NFKD
decomposition) survives sanitisation unchanged, and is outside the ASCII
class. -/
theorem C4_counterexample :
    get_valid_filename nfkdModel "д" = .ok "д" ∧
    ¬ ∀ c ∈ ("д" : String).toList,
        (c.isAlphanum = true ∨ c = '.' ∨ c = '_' ∨ c = '-') :=
  ⟨rfl, by decide⟩

/-- C4 (amended): for every raw string (and every NFKD table),
`get_valid_filename` either fails or returns a string containing only
Unicode word characters, dots and hyphens, and never returns the empty
string, `"."` or `".."`. -/
theorem C4_amended_thm (nfkd : String → String) (s out : String)
    (h : get_valid_filename nfkd s = .ok out) :
    out ≠ "" ∧ out ≠ "." ∧ out ≠ ".." ∧
      ∀ c ∈ out.toList, pyRegexKeep c = true := by
  simp only [get_valid_filename] at h
  split at h
  · simp at h
  · rename_i hcond
    push_neg at hcond
    obtain ⟨h1, h2, h3⟩ := hcond
    have hout : String.mk
        ((nfkd (pyReplaceSpaces (pyStrip s))).toList.filter pyRegexKeep)
        = out := by simpa using h
    subst hout
    refine ⟨h1, h2, h3, ?_⟩
    intro c hc
    exact (List.mem_filter.mp hc).2

/-- C4 witness: `"a b.txt"` sanitises to `"a_b.txt"`, which satisfies the
amended output contract. -/
theorem C4_witness :
    ("a_b.txt" : String) ≠ "" ∧ ("a_b.txt" : String) ≠ "." ∧
      ("a_b.txt" : String) ≠ ".." ∧
      ∀ c ∈ ("a_b.txt" : String).toList, pyRegexKeep c = true :=
  C4_amended_thm nfkdModel "a b.txt" "a_b.txt" rfl

/-- C7: the claim says that with no base URL configured, `url(filename)`
fails with `Misconfigured` for *every* filename.  Counterexample: `url` runs
`validate_file_name(filename, allow_relative_path=True)` before reading
`base_url`, so `url("..")` with no base fails with the
`SuspiciousFileOperation` name-validation error, not with the
`ValueError("Invalid base_url")` misconfiguration error. -/
theorem C7_counterexample :
    url none ".." = .error ⟨.SuspiciousFileOperation,
      "Could not derive file name from '..'"⟩ ∧
    (⟨.SuspiciousFileOperation, "Could not derive file name from '..'"⟩
      : PyErr) ≠ ⟨.ValueError, "Invalid base_url"⟩ :=
  ⟨rfl, by decide⟩

/-- C7 (amended): for every filename that passes relative-allowed
validation, `url` with no configured base URL (absent or empty) fails with
the `ValueError("Invalid base_url")` misconfiguration error. -/
theorem C7_amended_thm (filename r : String)
    (hv : validate_file_name filename true = .ok r) :
    url none filename = .error ⟨.ValueError, "Invalid base_url"⟩ ∧
    url (some "") filename = .error ⟨.ValueError, "Invalid base_url"⟩ := by
  constructor <;> simp [url, hv]

/-- C7 witness: `url("a.txt")` with no base fails with the
misconfiguration error. -/
theorem C7_witness :
    url none "a.txt" = .error ⟨.ValueError, "Invalid base_url"⟩ ∧
    url (some "") "a.txt" = .error ⟨.ValueError, "Invalid base_url"⟩ :=
  C7_amended_thm "a.txt" "a.txt" rfl

/-- C5: whenever `get_available_filename` returns a name under a positive
length budget, the name fits the budget, and it is either the original
filename or derived by replacing the stem with a prefix of the *original*
stem (truncation removes characters from its end) followed by the separator
and a fresh 7-character random suffix. -/
theorem C5_thm (ex : String → Bool) (rnd : Nat → Fin 62) (fuel : Nat)
    (filename : String) (maxLen : Int) (name : String) (hml : 0 < maxLen)
    (hres : get_available_filename ex rnd fuel filename maxLen =
      some (.ok name)) :
    (name.length : Int) ≤ maxLen ∧
      Candidate (parsePath filename) rnd filename name := by
  obtain ⟨hc, _, hlen⟩ :=
    get_available_filename_ok ex rnd fuel filename maxLen name hres
  exact ⟨hlen hml, hc⟩

/-- C5 witness: resolving `"toolongname.txt"` (which exists) under budget 14
returns `"to_aaaaaaa.txt"`: length 14, built from the first 2 characters of
the original stem plus a fresh random suffix. -/
theorem C5_witness :
    ((("to_aaaaaaa.txt" : String).length : Int) ≤ 14 ∧
      Candidate (parsePath "toolongname.txt") rndA "toolongname.txt"
        "to_aaaaaaa.txt") :=
  C5_thm exC5 rndA 4 "toolongname.txt" 14 "to_aaaaaaa.txt" (by decide) rfl

/-- C6: with `exists` true exactly on `"x.txt"`, resolving `"x.txt"` with no
length budget returns `x_<7 alphabet characters>.txt`, distinct from
`"x.txt"` — for every random stream. -/
theorem C6_thm (rnd : Nat → Fin 62) :
    ∃ r : String, r.length = 7 ∧
      (∀ c ∈ r.toList, c ∈ RANDOM_STRING_CHARS) ∧
      get_available_filename exX rnd 2 "x.txt" 0 =
        some (.ok ("x_" ++ r ++ ".txt")) ∧
      "x_" ++ r ++ ".txt" ≠ "x.txt" := by
  have h1 : (("x_" ++ randomString rnd 0 7) ++ ".txt").length = 13 := by
    rw [String.length_append, String.length_append, randomString_length]
    decide
  refine ⟨randomString rnd 0 7, randomString_length rnd 0 7,
    randomString_mem rnd 0 7, ?_, ?_⟩
  · have hne : exX (("x_" ++ randomString rnd 0 7) ++ ".txt") = false := by
      apply str_beq_false_of_length
      rw [h1]
      decide
    calc get_available_filename exX rnd 2 "x.txt" 0
        = resolveLoop exX rnd (parsePath "x.txt") 0 (Nat.succ 0)
            (("x_" ++ randomString rnd 0 7) ++ ".txt") 7 := rfl
      _ = some (.ok (("x_" ++ randomString rnd 0 7) ++ ".txt")) := by
          simp only [resolveLoop]
          rw [if_neg]
          rintro (hc | hc)
          · rw [hne] at hc
            exact Bool.false_ne_true hc
          · exact absurd hc.1 (lt_irrefl 0)
  · intro h
    have hl := congrArg String.length h
    rw [h1] at hl
    exact absurd hl (by decide)

/-- C8: whenever `get_available_filename` returns a name, the name keeps the
desired filename's directory components (`segs.dropLast`), its absolute
flag, and its final extension (`suffix`) unchanged: only the stem differs —
it is the original stem, or a possibly truncated original stem with the
separator and 7 random characters appended. -/
theorem C8_thm (ex : String → Bool) (rnd : Nat → Fin 62) (fuel : Nat)
    (filename : String) (maxLen : Int) (name : String)
    (hres : get_available_filename ex rnd fuel filename maxLen =
      some (.ok name)) :
    name = filename ∨
      ∃ k ctr, k ≤ (parsePath filename).stem.toList.length ∧
        name = PyPath.toStr
          { absolute := (parsePath filename).absolute
            segs := (parsePath filename).segs.dropLast ++
              [(String.mk ((parsePath filename).stem.toList.take k) ++ "_" ++
                randomString rnd ctr 7) ++ (parsePath filename).suffix] } :=
  (get_available_filename_ok ex rnd fuel filename maxLen name hres).1

/-- C8 witness: resolving the colliding `"x.txt"` yields
`"x_aaaaaaa.txt"` — same (empty) directory part, same `.txt` suffix, stem
built from the original stem `"x"`. -/
theorem C8_witness :
    "x_aaaaaaa.txt" = "x.txt" ∨
      ∃ k ctr, k ≤ (parsePath "x.txt").stem.toList.length ∧
        "x_aaaaaaa.txt" = PyPath.toStr
          { absolute := (parsePath "x.txt").absolute
            segs := (parsePath "x.txt").segs.dropLast ++
              [(String.mk ((parsePath "x.txt").stem.toList.take k) ++ "_" ++
                randomString rndA ctr 7) ++ (parsePath "x.txt").suffix] } :=
  C8_thm exX rndA 2 "x.txt" 0 "x_aaaaaaa.txt" rfl

/-- C9: when `max_len <= 0` and the desired filename passes the initial
validation, `get_available_filename` cannot fail (in particular not with the
`ExhaustedNameSpace` error): any value it returns is a name for which
`exists` is false. -/
theorem C9_thm (ex : String → Bool) (rnd : Nat → Fin 62) (fuel : Nat)
    (filename : String) (maxLen : Int) (r : Except PyErr String)
    (hml : maxLen ≤ 0)
    (hpt : ¬ (".." : String) ∈ (parsePath filename).parts)
    (hv : validate_file_name (parsePath filename).name false =
      .ok ((parsePath filename).name))
    (hres : get_available_filename ex rnd fuel filename maxLen = some r) :
    ∃ name, r = .ok name ∧ ex name = false := by
  simp only [get_available_filename] at hres
  rw [if_neg hpt, hv] at hres
  exact resolveLoop_nonpos ex rnd _ maxLen hml fuel filename 0 r hres

/-- C9 witness: resolving `"a.txt"` in an empty store with `max_len = 0`
returns `"a.txt"` itself, and `exists "a.txt"` is false. -/
theorem C9_witness :
    ∃ name, (Except.ok "a.txt" : Except PyErr String) = .ok name ∧
      exFalse name = false :=
  C9_thm exFalse rndA 1 "a.txt" 0 (Except.ok "a.txt") (by decide) (by decide)
    rfl rfl

/-- C10: every name-validation failure of the module — sanitisation
(`get_valid_filename`), name validation (`validate_file_name`), path
containment (`safe_join`) and collision-resolution exhaustion
(`get_available_filename`) — is raised as the single exception class
`SuspiciousFileOperation`, which is a `ValueError` subclass; the spec's
distinct error kinds are not distinguishable by exception type. -/
theorem C10_thm :
    (∀ nfkd s e, get_valid_filename nfkd s = .error e →
      e.etype = .SuspiciousFileOperation) ∧
    (∀ f ar e, validate_file_name f ar = .error e →
      e.etype = .SuspiciousFileOperation) ∧
    (∀ cwd b p e, safe_join cwd b p = .error e →
      e.etype = .SuspiciousFileOperation) ∧
    (∀ ex rnd fuel f m e, get_available_filename ex rnd fuel f m =
      some (.error e) → e.etype = .SuspiciousFileOperation) ∧
    PyExcType.isValueError .SuspiciousFileOperation = true :=
  ⟨get_valid_filename_error_etype, validate_file_name_error_etype,
    safe_join_error_etype, get_available_filename_error_etype, rfl⟩

/-- C10 witness: the rejection of `".."` is a `SuspiciousFileOperation`. -/
theorem C10_witness :
    ∃ e, validate_file_name ".." false = .error e ∧
      e.etype = .SuspiciousFileOperation :=
  ⟨⟨.SuspiciousFileOperation, "Could not derive file name from '..'"⟩, rfl,
    C10_thm.2.1 ".." false _ rfl⟩
